import Mathlib

/-
  Verification development for the gemini-chat-userscript bridge
  (src/server.py, push mode over WebSocket; src/server_http.py, pull mode
  over HTTP polling).  The pending-request table, a Python dict keyed by
  request id, is modelled as an insertion-ordered association list;
  Python dict iteration order is insertion order, which the poll handler
  and the catch-up loop rely on.  Option models a possibly missing JSON
  key or a Python None value; truthiness of an optional string is modelled
  explicitly.
-/

set_option maxHeartbeats 1000000

namespace GeminiBridge

/-- Seconds before a pending request times out; REQUEST_TIMEOUT = 60 in
both server.py line 29 and server_http.py line 24. -/
def REQUEST_TIMEOUT : Nat := 60

/-- One element of the parts array of an inbound request body; the text
key may be missing. -/
structure PartItem where
  text : Option String
  deriving DecidableEq

/-- One element of the contents array of an inbound request body; the
parts key may be missing. -/
structure ContentItem where
  parts : Option (List PartItem)
  deriving DecidableEq

/-- The JSON body accepted by generate_content: a dict whose contents key
(possibly missing, modelled by none) holds a list of content items. -/
structure RequestData where
  contents : Option (List ContentItem)
  deriving DecidableEq

/-- The error payload stored into an entry by the response handlers:
a message and an HTTP-style code (always 500 in the source). -/
structure ErrorData where
  message : String
  code : Nat
  deriving DecidableEq

/-- Dict lookup on an insertion-ordered association list (Python d[k] /
`k in d` / d.get(k)). -/
def dictGet {β : Type} (id : String) : List (String × β) → Option β
  | [] => none
  | p :: rest => if p.1 = id then some p.2 else dictGet id rest

/-- Dict deletion (Python `del d[k]`): removes every binding of the key;
on a table with unique keys this is exactly removal of the one binding. -/
def dictDel {β : Type} (id : String) : List (String × β) → List (String × β)
  | [] => []
  | p :: rest => if p.1 = id then dictDel id rest else p :: dictDel id rest

/-- In-place mutation of the value stored under a key (Python
`d[k][field] = v`), keeping insertion order. -/
def dictUpdate {β : Type} (id : String) (f : β → β) :
    List (String × β) → List (String × β)
  | [] => []
  | p :: rest =>
    if p.1 = id then (p.1, f p.2) :: dictUpdate id f rest
    else p :: dictUpdate id f rest

/-- Dict assignment (Python `d[k] = v`): overwrite in place when the key
exists, otherwise append at the end (insertion order). -/
def dictSet {β : Type} (id : String) (v : β) (q : List (String × β)) :
    List (String × β) :=
  if (dictGet id q).isSome then dictUpdate id (fun _ => v) q else q ++ [(id, v)]

/-- Python truthiness of an optional string: None and the empty string
are falsy, every other string is truthy. -/
def truthyOptStr : Option String → Bool
  | none => false
  | some s => decide (s ≠ "")

/-- The outcome recorded in a table entry, read the way generate_content
reads it: a stored error wins, otherwise a stored response is a success,
otherwise the entry is still unset. -/
inductive StoredOutcome where
  | unset
  | success (text : String)
  | failure (message : String)
  deriving DecidableEq

/-- The possible results of a generate_content call, tagged by which
return statement of the source produced them. -/
inductive GCResult where
  /-- HTTP 400: malformed body (one of the three validation messages). -/
  | badRequest (message : String)
  /-- HTTP 503: no userscript client connected. -/
  | noClient (message : String)
  /-- HTTP 500: the stored error_data dict is returned as the body. -/
  | workerError (e : ErrorData)
  /-- HTTP 200: the candidates body wrapping the response text. -/
  | success (text : String)
  /-- HTTP 500: empty response from userscript. -/
  | emptyResponse (message : String)
  /-- HTTP 504: timeout message. -/
  | timeout (message : String)
  /-- HTTP 500 via the outer except handler: the table access
  request_queue[request_id] raised KeyError for this id. -/
  | keyError (id : String)
  deriving DecidableEq

/-- The 400 message for a body that is missing or lacks a contents key
(server.py line 65, server_http.py line 132). -/
def invalidFormatMessage : String :=
  "Invalid request format. Expected \x7bcontents: [...]\x7d"

/-- The 503 message used when no worker is reachable (server.py line 94,
server_http.py line 163). -/
def noClientMessage : String :=
  "No userscript client connected. Please ensure the userscript is running on gemini.google.com"

/-- Validation of a present request body, in source order (server.py
lines 71-87, server_http.py lines 138-154): missing contents key is the
invalid-format 400; empty contents or falsy parts is the no-message 400;
empty extracted text is the empty-message 400; otherwise the message
text is returned. -/
def validate_contents (d : RequestData) : Except String String :=
  match d.contents with
  | none => .error invalidFormatMessage
  | some contents =>
    match contents with
    | [] => .error "No message content found"
    | c :: _ =>
      match c.parts with
      | none => .error "No message content found"
      | some [] => .error "No message content found"
      | some (p :: _) =>
        let message_text := p.text.getD ""
        if message_text = "" then .error "Empty message text"
        else .ok message_text

end GeminiBridge

namespace GeminiBridge.ServerHttp

/-- One pending-request table entry of server_http.py (line 176): the
validated request body, the response and error slots (absent until a
result is posted), the completion event, creation timestamp (seconds),
model name, and the pull-mode assigned flag. -/
structure Entry where
  request_data : RequestData
  response_data : Option String
  error_data : Option ErrorData
  eventSet : Bool
  timestamp : Nat
  model : String
  assigned : Bool
  deriving DecidableEq

/-- The pending-request table request_queue of server_http.py. -/
abbrev Table := List (String × Entry)

/-- The outcome currently recorded in an entry, with the same precedence
generate_content uses when it wakes: error_data first, then
response_data, else unset. -/
def storedOutcome (e : Entry) : StoredOutcome :=
  match e.error_data with
  | some ed => .failure ed.message
  | none =>
    match e.response_data with
    | some t => .success t
    | none => .unset

/-- Worker liveness in pull mode (server_http.py lines 35 and 158):
last_poll_time is truthy and less than 10 seconds old.  The difference
is taken over Int to model the signed float subtraction. -/
def is_client_connected (last_poll_time : Option Nat) (now : Nat) : Bool :=
  match last_poll_time with
  | none => false
  | some t => decide (t ≠ 0) && decide ((now : Int) - (t : Int) < 10)

/-- Message extraction in the poll handler (server_http.py lines 66-69):
message_text defaults to the empty string unless contents is a nonempty
list whose head has a truthy parts list. -/
def poll_message (rd : RequestData) : String :=
  match rd.contents with
  | none => ""
  | some [] => ""
  | some (c :: _) =>
    match c.parts with
    | none => ""
    | some [] => ""
    | some (p :: _) => p.text.getD ""

/-- The request object returned by a successful poll. -/
structure PollRequest where
  requestId : String
  message : String
  model : String
  deriving DecidableEq

/-- The poll handler (server_http.py lines 58-80), minus the
last_poll_time update: scan the table in insertion order for the first
entry that is unassigned and has no response_data, mark it assigned and
return its payload; return none when no entry qualifies. -/
def poll : Table → Option PollRequest × Table
  | [] => (none, [])
  | (id, e) :: rest =>
    if e.assigned = false ∧ e.response_data = none then
      (some { requestId := id, message := poll_message e.request_data,
              model := e.model },
        (id, { e with assigned := true }) :: rest)
    else
      ((poll rest).1, (id, e) :: (poll rest).2)

/-- The three possible replies of the /response handler. -/
inductive RespResult where
  /-- HTTP 400: Missing requestId. -/
  | missingId
  /-- HTTP 200: status ok; a result was stored and the event set. -/
  | ok
  /-- HTTP 404: Unknown requestId. -/
  | unknownId
  deriving DecidableEq

/-- The /response handler receive_response (server_http.py lines 88-112):
a falsy requestId is a 400; an id present in the table gets its
error_data set (when the posted error is truthy) or its response_data
set (otherwise, even to None), then its event set, replying ok; an
unknown id is a 404 and the table is untouched. -/
def receive_response (requestId response error : Option String) (q : Table) :
    RespResult × Table :=
  if truthyOptStr requestId = false then (.missingId, q)
  else
    let id := requestId.getD ""
    match dictGet id q with
    | some _ =>
      let q1 :=
        if truthyOptStr error then
          dictUpdate id
            (fun e => { e with
              error_data := some { message := error.getD "", code := 500 } }) q
        else
          dictUpdate id (fun e => { e with response_data := response }) q
      (.ok, dictUpdate id (fun e => { e with eventSet := true }) q1)
    | none => (.unknownId, q)

/-- The tail of generate_content after event.wait (server_http.py lines
188-227), given whether the event fired within the timeout.  On a fired
event the entry is read (a missing id raises KeyError, caught by the
outer handler as a 500) and deleted, then error_data wins over a truthy
response_data, else the empty-response 500.  On timeout the entry is
deleted and the 504 returned. -/
def generate_content_wait (signaled : Bool) (id : String) (q : Table) :
    GCResult × Table :=
  if signaled then
    match dictGet id q with
    | none => (.keyError id, q)
    | some e =>
      let q1 := dictDel id q
      match e.error_data with
      | some ed => (.workerError ed, q1)
      | none =>
        if truthyOptStr e.response_data then
          (.success (e.response_data.getD ""), q1)
        else (.emptyResponse "Empty response from userscript", q1)
  else
    (.timeout "Request timeout after 60 seconds", dictDel id q)

/-- The entry stored for a freshly submitted request (server_http.py
lines 176-183): the validated body, no response or error yet, event not
set, creation timestamp, model name, not assigned. -/
def freshEntry (d : RequestData) (timestamp : Nat) (model : String) : Entry :=
  { request_data := d, response_data := none, error_data := none,
    eventSet := false, timestamp := timestamp, model := model,
    assigned := false }

/-- The generateContent endpoint (server_http.py lines 119-227):
validate the body, refuse with the 503 when no client polled within the
liveness window, otherwise insert a fresh entry (fresh uuid newId,
timestamp from datetime.now) and run the wait tail.  signaled abstracts
whether the entry's event fired within REQUEST_TIMEOUT. -/
def generate_content (model : String) (data : Option RequestData)
    (last_poll_time : Option Nat) (now timestamp : Nat) (newId : String)
    (signaled : Bool) (q : Table) : GCResult × Table :=
  match data with
  | none => (.badRequest invalidFormatMessage, q)
  | some d =>
    match validate_contents d with
    | .error m => (.badRequest m, q)
    | .ok _message_text =>
      if is_client_connected last_poll_time now = false then
        (.noClient noClientMessage, q)
      else
        generate_content_wait signaled newId
          (dictSet newId (freshEntry d timestamp model) q)

/-- One sweep of cleanup_old_requests (server_http.py lines 242-251):
collect every id whose age at the sweep instant exceeds
REQUEST_TIMEOUT + 10 seconds and delete those ids; the age is the signed
difference of the sweep time and the creation timestamp. -/
def cleanup_sweep (now : Nat) : Table → Table
  | [] => []
  | (id, e) :: rest =>
    if (now : Int) - (e.timestamp : Int) > (REQUEST_TIMEOUT : Int) + 10 then
      cleanup_sweep now rest
    else (id, e) :: cleanup_sweep now rest

/-- Repeated reaper sweeps at the given instants, oldest first. -/
def cleanup_sweeps (times : List Nat) (q : Table) : Table :=
  times.foldl (fun acc t => cleanup_sweep t acc) q

end GeminiBridge.ServerHttp

namespace GeminiBridge.Server

/-- One pending-request table entry of server.py (line 107): the
validated request body, the response and error slots (absent until a
result arrives over the WebSocket), the completion event, creation
timestamp (seconds) and model name.  Push mode has no assigned flag. -/
structure Entry where
  request_data : RequestData
  response_data : Option String
  error_data : Option ErrorData
  eventSet : Bool
  timestamp : Nat
  model : String
  deriving DecidableEq

/-- The pending-request table request_queue of server.py. -/
abbrev Table := List (String × Entry)

/-- The outcome currently recorded in an entry, with the precedence
generate_content uses when it wakes: error_data first, then
response_data, else unset. -/
def storedOutcome (e : Entry) : StoredOutcome :=
  match e.error_data with
  | some ed => .failure ed.message
  | none =>
    match e.response_data with
    | some t => .success t
    | none => .unset

/-- The three paths of the push-mode result handler. -/
inductive HandleResult where
  /-- Falsy requestId: only a warning is printed. -/
  | noRequestId
  /-- The id was live: a result slot was written and the event set. -/
  | stored
  /-- Unknown requestId: only a warning is printed. -/
  | unknownId
  deriving DecidableEq

/-- The WebSocket result handler handle_response (server.py lines
245-268): a falsy requestId only logs; a live id gets its error_data set
(when the reported error is truthy) or its response_data set (otherwise,
even to None), then its event set; an unknown id only logs and the table
is untouched. -/
def handle_response (requestId response error : Option String) (q : Table) :
    HandleResult × Table :=
  if truthyOptStr requestId = false then (.noRequestId, q)
  else
    let id := requestId.getD ""
    match dictGet id q with
    | some _ =>
      let q1 :=
        if truthyOptStr error then
          dictUpdate id
            (fun e => { e with
              error_data := some { message := error.getD "", code := 500 } }) q
        else
          dictUpdate id (fun e => { e with response_data := response }) q
      (.stored, dictUpdate id (fun e => { e with eventSet := true }) q1)
    | none => (.unknownId, q)

/-- The tail of generate_content after event.wait (server.py lines
124-163), identical to the pull-mode tail: on a fired event the entry is
read (a missing id raises KeyError, caught by the outer handler as a
500) and deleted, then error_data wins over a truthy response_data, else
the empty-response 500; on timeout the entry is deleted and the 504
returned. -/
def generate_content_wait (signaled : Bool) (id : String) (q : Table) :
    GCResult × Table :=
  if signaled then
    match dictGet id q with
    | none => (.keyError id, q)
    | some e =>
      let q1 := dictDel id q
      match e.error_data with
      | some ed => (.workerError ed, q1)
      | none =>
        if truthyOptStr e.response_data then
          (.success (e.response_data.getD ""), q1)
        else (.emptyResponse "Empty response from userscript", q1)
  else
    (.timeout "Request timeout after 60 seconds", dictDel id q)

/-- The entry stored for a freshly submitted request (server.py lines
107-113): the validated body, no response or error yet, event not set,
creation timestamp, model name. -/
def freshEntry (d : RequestData) (timestamp : Nat) (model : String) : Entry :=
  { request_data := d, response_data := none, error_data := none,
    eventSet := false, timestamp := timestamp, model := model }

/-- The generateContent endpoint (server.py lines 52-163): validate the
body, refuse with the 503 when the WebSocket client registry is empty,
otherwise insert a fresh entry (fresh uuid newId, timestamp from
datetime.now), broadcast the request to the connected clients (the
broadcast has no effect on the table and is not modelled further) and
run the wait tail.  clientCount is the size of connected_clients at the
check; signaled abstracts whether the entry's event fired within
REQUEST_TIMEOUT. -/
def generate_content (model : String) (data : Option RequestData)
    (clientCount : Nat) (timestamp : Nat) (newId : String)
    (signaled : Bool) (q : Table) : GCResult × Table :=
  match data with
  | none => (.badRequest invalidFormatMessage, q)
  | some d =>
    match validate_contents d with
    | .error m => (.badRequest m, q)
    | .ok _message_text =>
      if clientCount = 0 then
        (.noClient noClientMessage, q)
      else
        generate_content_wait signaled newId
          (dictSet newId (freshEntry d timestamp model) q)

/-- A type-request message sent to a worker connection. -/
structure WsRequestMsg where
  requestId : String
  message : String
  model : String
  deriving DecidableEq

/-- Message text used by the catch-up loop (server.py line 216), which
indexes request_data contents 0 parts 0 directly and defaults only the
text key; table entries always come from validated bodies, where both
lists are nonempty, so the fallback arms are unreachable in the running
system (Python would raise there). -/
def catchup_text (rd : RequestData) : String :=
  match rd.contents with
  | some (c :: _) =>
    match c.parts with
    | some (p :: _) => p.text.getD ""
    | _ => ""
  | _ => ""

/-- The catch-up loop of handle_websocket (server.py lines 210-218): on
a new connection, every table entry whose response_data is None is
re-sent to that connection as a type-request message, in insertion
order. -/
def catchup_messages : Table → List WsRequestMsg
  | [] => []
  | (id, e) :: rest =>
    if e.response_data = none then
      { requestId := id, message := catchup_text e.request_data,
        model := e.model } :: catchup_messages rest
    else catchup_messages rest

/-- One sweep of cleanup_old_requests (server.py lines 275-284):
collect every id whose age at the sweep instant exceeds
REQUEST_TIMEOUT + 10 seconds and delete those ids. -/
def cleanup_sweep (now : Nat) : Table → Table
  | [] => []
  | (id, e) :: rest =>
    if (now : Int) - (e.timestamp : Int) > (REQUEST_TIMEOUT : Int) + 10 then
      cleanup_sweep now rest
    else (id, e) :: cleanup_sweep now rest

/-- Repeated reaper sweeps at the given instants, oldest first. -/
def cleanup_sweeps (times : List Nat) (q : Table) : Table :=
  times.foldl (fun acc t => cleanup_sweep t acc) q

end GeminiBridge.Server

namespace GeminiBridge

theorem dictGet_dictDel_self {β : Type} (id : String) (q : List (String × β)) :
    dictGet id (dictDel id q) = none := by
  induction q with
  | nil => simp [dictGet, dictDel]
  | cons p rest ih =>
    by_cases h : p.1 = id
    · simpa [dictDel, h] using ih
    · simp [dictDel, dictGet, h, ih]

theorem dictGet_dictDel_ne {β : Type} {id idx : String} (h : idx ≠ id)
    (q : List (String × β)) : dictGet idx (dictDel id q) = dictGet idx q := by
  induction q with
  | nil => simp [dictDel]
  | cons p rest ih =>
    by_cases h1 : p.1 = id
    · simp [dictDel, dictGet, h1, Ne.symm h, ih]
    · by_cases h2 : p.1 = idx
      · simp [dictDel, dictGet, h1, h2, h]
      · simp [dictDel, dictGet, h1, h2, ih]

theorem dictGet_dictUpdate_self {β : Type} (id : String) (f : β → β)
    (q : List (String × β)) :
    dictGet id (dictUpdate id f q) = (dictGet id q).map f := by
  induction q with
  | nil => simp [dictGet, dictUpdate]
  | cons p rest ih =>
    by_cases h : p.1 = id
    · simp [dictUpdate, dictGet, h]
    · simp [dictUpdate, dictGet, h, ih]

theorem dictGet_dictUpdate_ne {β : Type} {id idx : String} (h : idx ≠ id)
    (f : β → β) (q : List (String × β)) :
    dictGet idx (dictUpdate id f q) = dictGet idx q := by
  induction q with
  | nil => simp [dictUpdate]
  | cons p rest ih =>
    by_cases h1 : p.1 = id
    · simp [dictUpdate, dictGet, h1, Ne.symm h, ih]
    · by_cases h2 : p.1 = idx
      · simp [dictUpdate, dictGet, h1, h2, h]
      · simp [dictUpdate, dictGet, h1, h2, ih]

theorem dictGet_append {β : Type} (id : String) (q1 q2 : List (String × β)) :
    dictGet id (q1 ++ q2) =
      match dictGet id q1 with
      | some v => some v
      | none => dictGet id q2 := by
  induction q1 with
  | nil => simp [dictGet]
  | cons p rest ih =>
    by_cases h : p.1 = id
    · simp [dictGet, h]
    · simp [dictGet, h, ih]

theorem dictGet_dictSet_self {β : Type} (id : String) (v : β)
    (q : List (String × β)) : dictGet id (dictSet id v q) = some v := by
  unfold dictSet
  by_cases h : (dictGet id q).isSome
  · rcases Option.isSome_iff_exists.mp h with ⟨w, hw⟩
    simp [h, dictGet_dictUpdate_self, hw]
  · have h0 : dictGet id q = none := Option.not_isSome_iff_eq_none.mp h
    simp [h, dictGet_append, h0, dictGet]

theorem dictGet_dictSet_ne {β : Type} {id idx : String} (h : idx ≠ id)
    (v : β) (q : List (String × β)) :
    dictGet idx (dictSet id v q) = dictGet idx q := by
  unfold dictSet
  by_cases h1 : (dictGet id q).isSome
  · simp [h1, dictGet_dictUpdate_ne h]
  · cases hq : dictGet idx q with
    | none => simp [h1, dictGet_append, dictGet, Ne.symm h, hq]
    | some w => simp [h1, dictGet_append, dictGet, Ne.symm h, hq]

end GeminiBridge

namespace GeminiBridge

/-- Classifier: the caller saw the Success terminal outcome. -/
def isSuccessOutcome : GCResult → Bool
  | .success _ => true
  | _ => false

/-- Classifier: the caller saw a Failure terminal outcome (worker error,
empty response, or the KeyError 500 of the outer except handler). -/
def isFailureOutcome : GCResult → Bool
  | .workerError _ => true
  | .emptyResponse _ => true
  | .keyError _ => true
  | _ => false

/-- Classifier: the caller saw the Timeout terminal outcome. -/
def isTimeoutOutcome : GCResult → Bool
  | .timeout _ => true
  | _ => false

/-- A well-formed request body used to instantiate witnesses. -/
def sampleBody : RequestData :=
  { contents := some [ { parts := some [ { text := some "Hello" } ] } ] }

theorem validate_sampleBody : validate_contents sampleBody = .ok "Hello" := rfl

end GeminiBridge

namespace GeminiBridge.ServerHttp

theorem generate_content_wait_exactly_one (s : Bool) (id : String) (q : Table) :
    (isSuccessOutcome (generate_content_wait s id q).1).toNat
      + (isFailureOutcome (generate_content_wait s id q).1).toNat
      + (isTimeoutOutcome (generate_content_wait s id q).1).toNat = 1 := by
  unfold generate_content_wait
  cases s with
  | false => rfl
  | true =>
    cases hget : dictGet id q with
    | none => simp [hget, isSuccessOutcome, isFailureOutcome, isTimeoutOutcome]
    | some e =>
      cases hed : e.error_data with
      | some ed =>
        simp [hget, hed, isSuccessOutcome, isFailureOutcome, isTimeoutOutcome]
      | none =>
        by_cases hr : truthyOptStr e.response_data
        · simp [hget, hed, hr, isSuccessOutcome, isFailureOutcome,
            isTimeoutOutcome]
        · simp [hget, hed, hr, isSuccessOutcome, isFailureOutcome,
            isTimeoutOutcome]

end GeminiBridge.ServerHttp

namespace GeminiBridge.Server

theorem generate_content_wait_exactly_one_push (s : Bool) (id : String) (q : Table) :
    (isSuccessOutcome (generate_content_wait s id q).1).toNat
      + (isFailureOutcome (generate_content_wait s id q).1).toNat
      + (isTimeoutOutcome (generate_content_wait s id q).1).toNat = 1 := by
  unfold generate_content_wait
  cases s with
  | false => rfl
  | true =>
    cases hget : dictGet id q with
    | none => simp [hget, isSuccessOutcome, isFailureOutcome, isTimeoutOutcome]
    | some e =>
      cases hed : e.error_data with
      | some ed =>
        simp [hget, hed, isSuccessOutcome, isFailureOutcome, isTimeoutOutcome]
      | none =>
        by_cases hr : truthyOptStr e.response_data
        · simp [hget, hed, hr, isSuccessOutcome, isFailureOutcome,
            isTimeoutOutcome]
        · simp [hget, hed, hr, isSuccessOutcome, isFailureOutcome,
            isTimeoutOutcome]

end GeminiBridge.Server

namespace GeminiBridge.ServerHttp

theorem generate_content_queued (model : String) (d : RequestData)
    (lpt : Option Nat) (now ts : Nat) (newId : String) (signaled : Bool)
    (q : Table) (mt : String) (hval : validate_contents d = .ok mt)
    (hconn : is_client_connected lpt now = true) :
    generate_content model (some d) lpt now ts newId signaled q =
      generate_content_wait signaled newId
        (dictSet newId (freshEntry d ts model) q) := by
  simp [generate_content, hval, hconn]

end GeminiBridge.ServerHttp

namespace GeminiBridge.Server

theorem generate_content_queued_push (model : String) (d : RequestData)
    (cc ts : Nat) (newId : String) (signaled : Bool)
    (q : Table) (mt : String) (hval : validate_contents d = .ok mt)
    (hcc : cc ≠ 0) :
    generate_content model (some d) cc ts newId signaled q =
      generate_content_wait signaled newId
        (dictSet newId (freshEntry d ts model) q) := by
  simp [generate_content, hval, hcc]

end GeminiBridge.Server

namespace GeminiBridge

/-- C4: if no result is posted for a request's id within the timeout,
generate_content returns the 504 timeout outcome with the timeout
message and deletes the entry, so the table no longer contains that id;
this holds for both the pull-mode server (server_http.py) and the
push-mode server (server.py). -/
theorem C4_timeout_terminal_and_removed :
    (∀ (model : String) (d : RequestData) (lpt : Option Nat) (now ts : Nat)
        (newId : String) (q : ServerHttp.Table) (mt : String),
      validate_contents d = .ok mt →
      ServerHttp.is_client_connected lpt now = true →
      (ServerHttp.generate_content model (some d) lpt now ts newId false q).1
          = .timeout "Request timeout after 60 seconds" ∧
        dictGet newId
          (ServerHttp.generate_content model (some d) lpt now ts newId
            false q).2 = none) ∧
    (∀ (model : String) (d : RequestData) (cc ts : Nat) (newId : String)
        (q : Server.Table) (mt : String),
      validate_contents d = .ok mt → cc ≠ 0 →
      (Server.generate_content model (some d) cc ts newId false q).1
          = .timeout "Request timeout after 60 seconds" ∧
        dictGet newId
          (Server.generate_content model (some d) cc ts newId false q).2
          = none) := by
  constructor
  · intro model d lpt now ts newId q mt hval hconn
    rw [ServerHttp.generate_content_queued model d lpt now ts newId false q mt
      hval hconn]
    unfold ServerHttp.generate_content_wait
    exact ⟨rfl, dictGet_dictDel_self newId _⟩
  · intro model d cc ts newId q mt hval hcc
    rw [Server.generate_content_queued_push model d cc ts newId false q mt hval hcc]
    unfold Server.generate_content_wait
    exact ⟨rfl, dictGet_dictDel_self newId _⟩

/-- Witness for C4 at a concrete submission with a live worker and no
result posted. -/
theorem C4_witness :
    (ServerHttp.generate_content "gemini-pro" (some sampleBody) (some 5) 6 6
        "id1" false []).1 = .timeout "Request timeout after 60 seconds" ∧
      dictGet "id1"
        (ServerHttp.generate_content "gemini-pro" (some sampleBody) (some 5) 6
          6 "id1" false []).2 = none :=
  C4_timeout_terminal_and_removed.1 "gemini-pro" sampleBody (some 5) 6 6 "id1"
    [] "Hello" validate_sampleBody (by decide)

/-- C5: posting a result for an id that is not in the table is a no-op
in both servers: the table is returned unchanged, no entry is created,
and the call is reported only as the unknown-id path (a log line in push
mode, the 404 Unknown requestId reply in pull mode). -/
theorem C5_unknown_id_is_noop :
    (∀ (rid resp err : Option String) (q : Server.Table),
      truthyOptStr rid = true →
      dictGet (rid.getD "") q = none →
      Server.handle_response rid resp err q = (.unknownId, q)) ∧
    (∀ (rid resp err : Option String) (q : ServerHttp.Table),
      truthyOptStr rid = true →
      dictGet (rid.getD "") q = none →
      ServerHttp.receive_response rid resp err q = (.unknownId, q)) := by
  constructor
  · intro rid resp err q h1 h2
    simp [Server.handle_response, h1, h2]
  · intro rid resp err q h1 h2
    simp [ServerHttp.receive_response, h1, h2]

/-- Witness for C5 at a concrete unknown id against an empty table. -/
theorem C5_witness :
    Server.handle_response (some "idX") none none []
        = (.unknownId, ([] : Server.Table)) ∧
      ServerHttp.receive_response (some "idX") (some "r") none []
        = (.unknownId, ([] : ServerHttp.Table)) :=
  ⟨C5_unknown_id_is_noop.1 (some "idX") none none [] (by decide) rfl,
    C5_unknown_id_is_noop.2 (some "idX") (some "r") none [] (by decide) rfl⟩

/-- C6: when the adapter reports zero reachable workers (push mode: the
connection registry is empty; pull mode: the last poll is missing or
outside the 10-second liveness window), a validated submission is
rejected with the 503 no-client outcome and the table is returned
unchanged, so no entry is created. -/
theorem C6_no_worker_rejects_without_entry :
    (∀ (model : String) (d : RequestData) (ts : Nat) (newId : String)
        (signaled : Bool) (q : Server.Table) (mt : String),
      validate_contents d = .ok mt →
      Server.generate_content model (some d) 0 ts newId signaled q
        = (.noClient noClientMessage, q)) ∧
    (∀ (model : String) (d : RequestData) (lpt : Option Nat) (now ts : Nat)
        (newId : String) (signaled : Bool) (q : ServerHttp.Table)
        (mt : String),
      validate_contents d = .ok mt →
      ServerHttp.is_client_connected lpt now = false →
      ServerHttp.generate_content model (some d) lpt now ts newId signaled q
        = (.noClient noClientMessage, q)) := by
  constructor
  · intro model d ts newId signaled q mt hval
    simp [Server.generate_content, hval]
  · intro model d lpt now ts newId signaled q mt hval hconn
    simp [ServerHttp.generate_content, hval, hconn]

/-- Witness for C6 at a concrete validated submission with an empty
registry (push) and with no poll ever observed (pull). -/
theorem C6_witness :
    Server.generate_content "gemini-pro" (some sampleBody) 0 3 "id1" true []
        = (.noClient noClientMessage, ([] : Server.Table)) ∧
      ServerHttp.generate_content "gemini-pro" (some sampleBody) none 3 3
          "id1" true [] = (.noClient noClientMessage, ([] : ServerHttp.Table)) :=
  ⟨C6_no_worker_rejects_without_entry.1 "gemini-pro" sampleBody 3 "id1" true []
      "Hello" validate_sampleBody,
    C6_no_worker_rejects_without_entry.2 "gemini-pro" sampleBody none 3 3 "id1"
      true [] "Hello" validate_sampleBody (by decide)⟩

end GeminiBridge

namespace GeminiBridge

/-- C1: every generate_content call that passes validation and has a
reachable worker (so a table entry is created) returns exactly one
terminal outcome — Success, Failure (worker error, empty response, or
the caught KeyError 500), or Timeout — never zero and never more than
one, whatever the worker did to the entry while the call waited; for
both the push-mode and the pull-mode server. -/
theorem C1_exactly_one_terminal_outcome :
    (∀ (model : String) (d : RequestData) (cc ts : Nat) (newId : String)
        (signaled : Bool) (q : Server.Table) (mt : String),
      validate_contents d = .ok mt → cc ≠ 0 →
      (isSuccessOutcome
            (Server.generate_content model (some d) cc ts newId signaled
              q).1).toNat
          + (isFailureOutcome
              (Server.generate_content model (some d) cc ts newId signaled
                q).1).toNat
          + (isTimeoutOutcome
              (Server.generate_content model (some d) cc ts newId signaled
                q).1).toNat = 1) ∧
    (∀ (model : String) (d : RequestData) (lpt : Option Nat) (now ts : Nat)
        (newId : String) (signaled : Bool) (q : ServerHttp.Table)
        (mt : String),
      validate_contents d = .ok mt →
      ServerHttp.is_client_connected lpt now = true →
      (isSuccessOutcome
            (ServerHttp.generate_content model (some d) lpt now ts newId
              signaled q).1).toNat
          + (isFailureOutcome
              (ServerHttp.generate_content model (some d) lpt now ts newId
                signaled q).1).toNat
          + (isTimeoutOutcome
              (ServerHttp.generate_content model (some d) lpt now ts newId
                signaled q).1).toNat = 1) := by
  constructor
  · intro model d cc ts newId signaled q mt hval hcc
    rw [Server.generate_content_queued_push model d cc ts newId signaled q mt
      hval hcc]
    exact Server.generate_content_wait_exactly_one_push signaled newId _
  · intro model d lpt now ts newId signaled q mt hval hconn
    rw [ServerHttp.generate_content_queued model d lpt now ts newId signaled q
      mt hval hconn]
    exact ServerHttp.generate_content_wait_exactly_one signaled newId _

/-- Witness for C1 at a concrete validated submission whose event fired
with no result recorded (the empty-response failure path). -/
theorem C1_witness :
    (isSuccessOutcome
          (Server.generate_content "gemini-pro" (some sampleBody) 1 0 "id1"
            true []).1).toNat
        + (isFailureOutcome
            (Server.generate_content "gemini-pro" (some sampleBody) 1 0 "id1"
              true []).1).toNat
        + (isTimeoutOutcome
            (Server.generate_content "gemini-pro" (some sampleBody) 1 0 "id1"
              true []).1).toNat = 1 :=
  C1_exactly_one_terminal_outcome.1 "gemini-pro" sampleBody 1 0 "id1" true []
    "Hello" validate_sampleBody (by decide)

end GeminiBridge

namespace GeminiBridge.ServerHttp

theorem cleanup_sweep_keeps_young (now : Nat) (q : Table) (id : String)
    (e : Entry) (hget : dictGet id q = some e)
    (hyoung : (now : Int) - (e.timestamp : Int) ≤ (REQUEST_TIMEOUT : Int) + 10) :
    dictGet id (cleanup_sweep now q) = some e := by
  induction q with
  | nil => simp [dictGet] at hget
  | cons p rest ih =>
    by_cases h1 : p.1 = id
    · rw [dictGet] at hget
      rw [if_pos h1] at hget
      have he : p.2 = e := Option.some.inj hget
      have hkeep : ¬((now : Int) - (e.timestamp : Int)
          > (REQUEST_TIMEOUT : Int) + 10) := not_lt.mpr hyoung
      simp [cleanup_sweep, he, hkeep, dictGet, h1]
    · have hget1 : dictGet id rest = some e := by
        rw [dictGet, if_neg h1] at hget
        exact hget
      by_cases h2 : (now : Int) - (p.2.timestamp : Int)
          > (REQUEST_TIMEOUT : Int) + 10
      · simp [cleanup_sweep, h2]
        exact ih hget1
      · simp [cleanup_sweep, h2, dictGet, h1]
        exact ih hget1

theorem cleanup_sweep_removes_only_old (now : Nat) (q : Table) (id : String)
    (e : Entry) (hget : dictGet id q = some e)
    (hnone : dictGet id (cleanup_sweep now q) = none) :
    (now : Int) - (e.timestamp : Int) > (REQUEST_TIMEOUT : Int) + 10 := by
  by_contra h
  rw [cleanup_sweep_keeps_young now q id e hget (not_lt.mp h)] at hnone
  exact Option.noConfusion hnone

theorem cleanup_sweeps_keep_young (times : List Nat) (q : Table) (id : String)
    (e : Entry) (hget : dictGet id q = some e)
    (hyoung : ∀ t ∈ times,
      (t : Int) - (e.timestamp : Int) ≤ (REQUEST_TIMEOUT : Int) + 10) :
    dictGet id (cleanup_sweeps times q) = some e := by
  induction times generalizing q with
  | nil => simpa [cleanup_sweeps] using hget
  | cons t ts ih =>
    have h1 : cleanup_sweeps (t :: ts) q = cleanup_sweeps ts (cleanup_sweep t q) := by
      simp [cleanup_sweeps]
    rw [h1]
    exact ih (cleanup_sweep t q)
      (cleanup_sweep_keeps_young t q id e hget (hyoung t (by simp)))
      (fun u hu => hyoung u (by simp [hu]))

end GeminiBridge.ServerHttp

namespace GeminiBridge.Server

theorem cleanup_sweep_keeps_young_push (now : Nat) (q : Table) (id : String)
    (e : Entry) (hget : dictGet id q = some e)
    (hyoung : (now : Int) - (e.timestamp : Int) ≤ (REQUEST_TIMEOUT : Int) + 10) :
    dictGet id (cleanup_sweep now q) = some e := by
  induction q with
  | nil => simp [dictGet] at hget
  | cons p rest ih =>
    by_cases h1 : p.1 = id
    · rw [dictGet] at hget
      rw [if_pos h1] at hget
      have he : p.2 = e := Option.some.inj hget
      have hkeep : ¬((now : Int) - (e.timestamp : Int)
          > (REQUEST_TIMEOUT : Int) + 10) := not_lt.mpr hyoung
      simp [cleanup_sweep, he, hkeep, dictGet, h1]
    · have hget1 : dictGet id rest = some e := by
        rw [dictGet, if_neg h1] at hget
        exact hget
      by_cases h2 : (now : Int) - (p.2.timestamp : Int)
          > (REQUEST_TIMEOUT : Int) + 10
      · simp [cleanup_sweep, h2]
        exact ih hget1
      · simp [cleanup_sweep, h2, dictGet, h1]
        exact ih hget1

theorem cleanup_sweep_removes_only_old_push (now : Nat) (q : Table) (id : String)
    (e : Entry) (hget : dictGet id q = some e)
    (hnone : dictGet id (cleanup_sweep now q) = none) :
    (now : Int) - (e.timestamp : Int) > (REQUEST_TIMEOUT : Int) + 10 := by
  by_contra h
  rw [cleanup_sweep_keeps_young_push now q id e hget (not_lt.mp h)] at hnone
  exact Option.noConfusion hnone

theorem cleanup_sweeps_keep_young_push (times : List Nat) (q : Table) (id : String)
    (e : Entry) (hget : dictGet id q = some e)
    (hyoung : ∀ t ∈ times,
      (t : Int) - (e.timestamp : Int) ≤ (REQUEST_TIMEOUT : Int) + 10) :
    dictGet id (cleanup_sweeps times q) = some e := by
  induction times generalizing q with
  | nil => simpa [cleanup_sweeps] using hget
  | cons t ts ih =>
    have h1 : cleanup_sweeps (t :: ts) q = cleanup_sweeps ts (cleanup_sweep t q) := by
      simp [cleanup_sweeps]
    rw [h1]
    exact ih (cleanup_sweep t q)
      (cleanup_sweep_keeps_young_push t q id e hget (hyoung t (by simp)))
      (fun u hu => hyoung u (by simp [hu]))

end GeminiBridge.Server

namespace GeminiBridge

/-- C7: in both servers the reaper deletes a table entry only when its
age at the sweep instant exceeds REQUEST_TIMEOUT + 10 seconds, never
earlier, and an entry whose age stays within that bound at every sweep
instant survives any number of sweeps unchanged. -/
theorem C7_reaper_spares_young_entries :
    (∀ (now : Nat) (q : ServerHttp.Table) (id : String) (e : ServerHttp.Entry),
      dictGet id q = some e →
      dictGet id (ServerHttp.cleanup_sweep now q) = none →
      (now : Int) - (e.timestamp : Int) > (REQUEST_TIMEOUT : Int) + 10) ∧
    (∀ (times : List Nat) (q : ServerHttp.Table) (id : String)
        (e : ServerHttp.Entry),
      dictGet id q = some e →
      (∀ t ∈ times,
        (t : Int) - (e.timestamp : Int) ≤ (REQUEST_TIMEOUT : Int) + 10) →
      dictGet id (ServerHttp.cleanup_sweeps times q) = some e) ∧
    (∀ (now : Nat) (q : Server.Table) (id : String) (e : Server.Entry),
      dictGet id q = some e →
      dictGet id (Server.cleanup_sweep now q) = none →
      (now : Int) - (e.timestamp : Int) > (REQUEST_TIMEOUT : Int) + 10) ∧
    (∀ (times : List Nat) (q : Server.Table) (id : String) (e : Server.Entry),
      dictGet id q = some e →
      (∀ t ∈ times,
        (t : Int) - (e.timestamp : Int) ≤ (REQUEST_TIMEOUT : Int) + 10) →
      dictGet id (Server.cleanup_sweeps times q) = some e) :=
  ⟨ServerHttp.cleanup_sweep_removes_only_old,
    ServerHttp.cleanup_sweeps_keep_young,
    Server.cleanup_sweep_removes_only_old_push,
    Server.cleanup_sweeps_keep_young_push⟩

/-- A concrete pull-mode entry created at time 0, used by witnesses. -/
def sampleEntryHttp : ServerHttp.Entry :=
  ServerHttp.freshEntry sampleBody 0 "gemini-pro"

/-- A concrete push-mode entry created at time 0, used by witnesses. -/
def sampleEntryPush : Server.Entry := Server.freshEntry sampleBody 0 "gemini-pro"

/-- Witness for C7: a concrete entry of age 30 and 60 at two sweeps
survives both; a concrete entry of age 100 that a sweep removed was
indeed older than the bound. -/
theorem C7_witness :
    dictGet "id1"
        (ServerHttp.cleanup_sweeps [30, 60] [("id1", sampleEntryHttp)])
        = some sampleEntryHttp ∧
      (100 : Int) - ((sampleEntryPush.timestamp : Nat) : Int)
        > (REQUEST_TIMEOUT : Int) + 10 :=
  ⟨C7_reaper_spares_young_entries.2.1 [30, 60] [("id1", sampleEntryHttp)] "id1"
      sampleEntryHttp (by decide) (by decide),
    C7_reaper_spares_young_entries.2.2.1 100 [("id1", sampleEntryPush)] "id1"
      sampleEntryPush (by decide) (by decide)⟩

end GeminiBridge

namespace GeminiBridge.ServerHttp

theorem receive_response_live (id : String) (resp err : Option String)
    (q : Table) (e : Entry) (hid : id ≠ "") (hget : dictGet id q = some e) :
    (receive_response (some id) resp err q).1 = .ok ∧
      dictGet id (receive_response (some id) resp err q).2 =
        some (if truthyOptStr err then
            { e with
              error_data := some { message := err.getD "", code := 500 },
              eventSet := true }
          else { e with response_data := resp, eventSet := true }) ∧
      (∀ idx, idx ≠ id →
        dictGet idx (receive_response (some id) resp err q).2 = dictGet idx q) := by
  have htr : truthyOptStr (some id) = true := by
    simp [truthyOptStr, hid]
  by_cases herr : truthyOptStr err = true
  · refine ⟨?_, ?_, ?_⟩
    · simp [receive_response, htr, hget, herr]
    · simp [receive_response, htr, hget, herr, dictGet_dictUpdate_self]
    · intro idx hidx
      simp [receive_response, htr, hget, herr, dictGet_dictUpdate_ne hidx]
  · refine ⟨?_, ?_, ?_⟩
    · simp [receive_response, htr, hget, herr]
    · simp [receive_response, htr, hget, herr, dictGet_dictUpdate_self]
    · intro idx hidx
      simp [receive_response, htr, hget, herr, dictGet_dictUpdate_ne hidx]

end GeminiBridge.ServerHttp

namespace GeminiBridge.Server

theorem handle_response_live (id : String) (resp err : Option String)
    (q : Table) (e : Entry) (hid : id ≠ "") (hget : dictGet id q = some e) :
    (handle_response (some id) resp err q).1 = .stored ∧
      dictGet id (handle_response (some id) resp err q).2 =
        some (if truthyOptStr err then
            { e with
              error_data := some { message := err.getD "", code := 500 },
              eventSet := true }
          else { e with response_data := resp, eventSet := true }) ∧
      (∀ idx, idx ≠ id →
        dictGet idx (handle_response (some id) resp err q).2 = dictGet idx q) := by
  have htr : truthyOptStr (some id) = true := by
    simp [truthyOptStr, hid]
  by_cases herr : truthyOptStr err = true
  · refine ⟨?_, ?_, ?_⟩
    · simp [handle_response, htr, hget, herr]
    · simp [handle_response, htr, hget, herr, dictGet_dictUpdate_self]
    · intro idx hidx
      simp [handle_response, htr, hget, herr, dictGet_dictUpdate_ne hidx]
  · refine ⟨?_, ?_, ?_⟩
    · simp [handle_response, htr, hget, herr]
    · simp [handle_response, htr, hget, herr, dictGet_dictUpdate_self]
    · intro idx hidx
      simp [handle_response, htr, hget, herr, dictGet_dictUpdate_ne hidx]

end GeminiBridge.Server

namespace GeminiBridge

/-- C9: when a result posted for a live, still-unset id carries both a
non-empty error string and a response text, the error wins in both
servers: the stored outcome becomes the Failure with that message and
code 500, the response text is discarded (response_data stays empty),
and the waiting generate_content call returns the 500 worker-error body
and removes the entry. -/
theorem C9_error_wins_over_response :
    (∀ (q : Server.Table) (id resp err : String) (e : Server.Entry),
      id ≠ "" → err ≠ "" →
      dictGet id q = some e → e.error_data = none → e.response_data = none →
      (Server.handle_response (some id) (some resp) (some err) q).1
          = .stored ∧
        dictGet id
            (Server.handle_response (some id) (some resp) (some err) q).2
          = some { e with
              error_data := some { message := err, code := 500 },
              eventSet := true } ∧
        Server.storedOutcome { e with
            error_data := some { message := err, code := 500 },
            eventSet := true } = .failure err ∧
        ({ e with
            error_data := some { message := err, code := 500 },
            eventSet := true } : Server.Entry).response_data = none ∧
        (Server.generate_content_wait true id
            (Server.handle_response (some id) (some resp) (some err) q).2).1
          = .workerError { message := err, code := 500 } ∧
        dictGet id (Server.generate_content_wait true id
            (Server.handle_response (some id) (some resp) (some err) q).2).2
          = none) ∧
    (∀ (q : ServerHttp.Table) (id resp err : String) (e : ServerHttp.Entry),
      id ≠ "" → err ≠ "" →
      dictGet id q = some e → e.error_data = none → e.response_data = none →
      (ServerHttp.receive_response (some id) (some resp) (some err) q).1
          = .ok ∧
        dictGet id
            (ServerHttp.receive_response (some id) (some resp) (some err) q).2
          = some { e with
              error_data := some { message := err, code := 500 },
              eventSet := true } ∧
        ServerHttp.storedOutcome { e with
            error_data := some { message := err, code := 500 },
            eventSet := true } = .failure err ∧
        ({ e with
            error_data := some { message := err, code := 500 },
            eventSet := true } : ServerHttp.Entry).response_data = none ∧
        (ServerHttp.generate_content_wait true id
            (ServerHttp.receive_response (some id) (some resp) (some err)
              q).2).1
          = .workerError { message := err, code := 500 } ∧
        dictGet id (ServerHttp.generate_content_wait true id
            (ServerHttp.receive_response (some id) (some resp) (some err)
              q).2).2 = none) := by
  constructor
  · intro q id resp err e hid herrne hget hed hrd
    obtain ⟨h1, h2, h3⟩ :=
      Server.handle_response_live id (some resp) (some err) q e hid hget
    have herr : truthyOptStr (some err) = true := by
      simp [truthyOptStr, herrne]
    rw [herr] at h2
    simp only [if_true, Option.getD_some] at h2
    refine ⟨h1, h2, by simp [Server.storedOutcome], by simp [hrd], ?_, ?_⟩
    · simp [Server.generate_content_wait, h2]
    · simp [Server.generate_content_wait, h2, dictGet_dictDel_self]
  · intro q id resp err e hid herrne hget hed hrd
    obtain ⟨h1, h2, h3⟩ :=
      ServerHttp.receive_response_live id (some resp) (some err) q e hid hget
    have herr : truthyOptStr (some err) = true := by
      simp [truthyOptStr, herrne]
    rw [herr] at h2
    simp only [if_true, Option.getD_some] at h2
    refine ⟨h1, h2, by simp [ServerHttp.storedOutcome], by simp [hrd], ?_, ?_⟩
    · simp [ServerHttp.generate_content_wait, h2]
    · simp [ServerHttp.generate_content_wait, h2, dictGet_dictDel_self]

/-- Witness for C9 at a concrete one-entry table where the worker posts
both a response text and a non-empty error. -/
theorem C9_witness :
    (Server.handle_response (some "id1") (some "R") (some "boom")
          [("id1", sampleEntryPush)]).1 = .stored ∧
      dictGet "id1"
          (Server.handle_response (some "id1") (some "R") (some "boom")
            [("id1", sampleEntryPush)]).2
        = some { sampleEntryPush with
            error_data := some { message := "boom", code := 500 },
            eventSet := true } ∧
      Server.storedOutcome { sampleEntryPush with
          error_data := some { message := "boom", code := 500 },
          eventSet := true } = .failure "boom" ∧
      ({ sampleEntryPush with
          error_data := some { message := "boom", code := 500 },
          eventSet := true } : Server.Entry).response_data = none ∧
      (Server.generate_content_wait true "id1"
          (Server.handle_response (some "id1") (some "R") (some "boom")
            [("id1", sampleEntryPush)]).2).1
        = .workerError { message := "boom", code := 500 } ∧
      dictGet "id1" (Server.generate_content_wait true "id1"
          (Server.handle_response (some "id1") (some "R") (some "boom")
            [("id1", sampleEntryPush)]).2).2 = none :=
  C9_error_wins_over_response.1 [("id1", sampleEntryPush)] "id1" "R" "boom"
    sampleEntryPush (by decide) (by decide) (by decide) rfl rfl

/-- C10: when a result posted for a live id carries no (truthy) error
and an empty or missing response text, both servers store that falsy
response and the waiting generate_content call returns the 500
empty-response failure, not a success, and removes the entry from the
table. -/
theorem C10_empty_response_is_500 :
    (∀ (q : Server.Table) (id : String) (resp err : Option String)
        (e : Server.Entry),
      id ≠ "" → truthyOptStr err = false → truthyOptStr resp = false →
      dictGet id q = some e → e.error_data = none →
      (Server.handle_response (some id) resp err q).1 = .stored ∧
        (Server.generate_content_wait true id
            (Server.handle_response (some id) resp err q).2).1
          = .emptyResponse "Empty response from userscript" ∧
        dictGet id (Server.generate_content_wait true id
            (Server.handle_response (some id) resp err q).2).2 = none) ∧
    (∀ (q : ServerHttp.Table) (id : String) (resp err : Option String)
        (e : ServerHttp.Entry),
      id ≠ "" → truthyOptStr err = false → truthyOptStr resp = false →
      dictGet id q = some e → e.error_data = none →
      (ServerHttp.receive_response (some id) resp err q).1 = .ok ∧
        (ServerHttp.generate_content_wait true id
            (ServerHttp.receive_response (some id) resp err q).2).1
          = .emptyResponse "Empty response from userscript" ∧
        dictGet id (ServerHttp.generate_content_wait true id
            (ServerHttp.receive_response (some id) resp err q).2).2
          = none) := by
  constructor
  · intro q id resp err e hid herr hresp hget hed
    obtain ⟨h1, h2, h3⟩ := Server.handle_response_live id resp err q e hid hget
    rw [herr] at h2
    simp only [if_false, Bool.false_eq_true] at h2
    refine ⟨h1, ?_, ?_⟩
    · simp [Server.generate_content_wait, h2, hed, hresp]
    · simp [Server.generate_content_wait, h2, hed, hresp,
        dictGet_dictDel_self]
  · intro q id resp err e hid herr hresp hget hed
    obtain ⟨h1, h2, h3⟩ :=
      ServerHttp.receive_response_live id resp err q e hid hget
    rw [herr] at h2
    simp only [if_false, Bool.false_eq_true] at h2
    refine ⟨h1, ?_, ?_⟩
    · simp [ServerHttp.generate_content_wait, h2, hed, hresp]
    · simp [ServerHttp.generate_content_wait, h2, hed, hresp,
        dictGet_dictDel_self]

/-- Witness for C10 at a concrete one-entry table where the worker posts
an empty response and no error. -/
theorem C10_witness :
    (ServerHttp.receive_response (some "id1") (some "") none
          [("id1", sampleEntryHttp)]).1 = .ok ∧
      (ServerHttp.generate_content_wait true "id1"
          (ServerHttp.receive_response (some "id1") (some "") none
            [("id1", sampleEntryHttp)]).2).1
        = .emptyResponse "Empty response from userscript" ∧
      dictGet "id1" (ServerHttp.generate_content_wait true "id1"
          (ServerHttp.receive_response (some "id1") (some "") none
            [("id1", sampleEntryHttp)]).2).2 = none :=
  C10_empty_response_is_500.2 [("id1", sampleEntryHttp)] "id1" (some "") none
    sampleEntryHttp (by decide) rfl (by decide) (by decide) rfl

end GeminiBridge

namespace GeminiBridge

/-- Counterexample input for C2: a live entry that already holds a
Success outcome (a stored response text). -/
def sampleSuccessEntryHttp : ServerHttp.Entry :=
  { sampleEntryHttp with response_data := some "A" }

/-- C2 is false on the code: receive_response writes an outcome whenever
the id is present, with no check that the outcome is still Unset.  On a
live entry whose outcome is already Success, a second post carrying an
error is accepted (reply ok, i.e. reported as written) and mutates the
stored outcome from Success to Failure. -/
theorem C2_counterexample :
    ServerHttp.storedOutcome sampleSuccessEntryHttp = .success "A" ∧
      (ServerHttp.receive_response (some "id1") none (some "boom")
          [("id1", sampleSuccessEntryHttp)]).1 = .ok ∧
      dictGet "id1"
          (ServerHttp.receive_response (some "id1") none (some "boom")
            [("id1", sampleSuccessEntryHttp)]).2
        = some { sampleSuccessEntryHttp with
            error_data := some { message := "boom", code := 500 },
            eventSet := true } ∧
      ServerHttp.storedOutcome { sampleSuccessEntryHttp with
          error_data := some { message := "boom", code := 500 },
          eventSet := true } = .failure "boom" := by
  refine ⟨rfl, rfl, ?_, rfl⟩
  decide

/-- C2 amended: the result handler writes an outcome whenever the id is
present in the table — regardless of whether the current outcome is
still Unset, so a later post can overwrite an earlier outcome — and its
reply reports whether the id was found (ok versus unknown), not whether
the outcome was still Unset; an unknown id leaves the table unchanged.
Holds for both the push-mode and the pull-mode handler. -/
theorem C2_amended_setOutcome_whenever_live :
    (∀ (rid resp err : Option String) (q : Server.Table),
      truthyOptStr rid = true →
      (((Server.handle_response rid resp err q).1 = .stored)
          ↔ (dictGet (rid.getD "") q).isSome = true) ∧
        (dictGet (rid.getD "") q = none →
          (Server.handle_response rid resp err q).2 = q) ∧
        (∀ e, dictGet (rid.getD "") q = some e →
          dictGet (rid.getD "") (Server.handle_response rid resp err q).2 =
            some (if truthyOptStr err then
                { e with
                  error_data := some { message := err.getD "", code := 500 },
                  eventSet := true }
              else { e with response_data := resp, eventSet := true }))) ∧
    (∀ (rid resp err : Option String) (q : ServerHttp.Table),
      truthyOptStr rid = true →
      (((ServerHttp.receive_response rid resp err q).1 = .ok)
          ↔ (dictGet (rid.getD "") q).isSome = true) ∧
        (dictGet (rid.getD "") q = none →
          (ServerHttp.receive_response rid resp err q).2 = q) ∧
        (∀ e, dictGet (rid.getD "") q = some e →
          dictGet (rid.getD "") (ServerHttp.receive_response rid resp err q).2 =
            some (if truthyOptStr err then
                { e with
                  error_data := some { message := err.getD "", code := 500 },
                  eventSet := true }
              else { e with response_data := resp, eventSet := true }))) := by
  constructor
  · intro rid resp err q htr
    cases rid with
    | none => simp [truthyOptStr] at htr
    | some s =>
      have hs : s ≠ "" := by
        simpa [truthyOptStr] using htr
      cases hget : dictGet s q with
      | none =>
        refine ⟨?_, ?_, ?_⟩
        · simp [Server.handle_response, htr, hget]
        · intro _
          simp [Server.handle_response, htr, hget]
        · intro e he
          rw [Option.getD_some] at he
          exact absurd (hget ▸ he) (by simp)
      | some e =>
        obtain ⟨h1, h2, h3⟩ :=
          Server.handle_response_live s resp err q e hs hget
        refine ⟨?_, ?_, ?_⟩
        · simp [h1, hget]
        · intro hnone
          rw [Option.getD_some] at hnone
          exact absurd (hget ▸ hnone) (by simp)
        · intro e2 he2
          rw [Option.getD_some] at he2
          rw [hget] at he2
          cases he2
          simpa using h2
  · intro rid resp err q htr
    cases rid with
    | none => simp [truthyOptStr] at htr
    | some s =>
      have hs : s ≠ "" := by
        simpa [truthyOptStr] using htr
      cases hget : dictGet s q with
      | none =>
        refine ⟨?_, ?_, ?_⟩
        · simp [ServerHttp.receive_response, htr, hget]
        · intro _
          simp [ServerHttp.receive_response, htr, hget]
        · intro e he
          rw [Option.getD_some] at he
          exact absurd (hget ▸ he) (by simp)
      | some e =>
        obtain ⟨h1, h2, h3⟩ :=
          ServerHttp.receive_response_live s resp err q e hs hget
        refine ⟨?_, ?_, ?_⟩
        · simp [h1, hget]
        · intro hnone
          rw [Option.getD_some] at hnone
          exact absurd (hget ▸ hnone) (by simp)
        · intro e2 he2
          rw [Option.getD_some] at he2
          rw [hget] at he2
          cases he2
          simpa using h2

/-- Witness for the amended C2 at a concrete live entry receiving a
plain response post. -/
theorem C2_witness :
    dictGet "id1"
        (ServerHttp.receive_response (some "id1") (some "R") none
          [("id1", sampleEntryHttp)]).2
      = some { sampleEntryHttp with
          response_data := some "R",
          eventSet := true } := by
  have h :=
    (C2_amended_setOutcome_whenever_live.2 (some "id1") (some "R") none
        [("id1", sampleEntryHttp)] (by decide)).2.2 sampleEntryHttp (by decide)
  simpa using h

end GeminiBridge

namespace GeminiBridge

theorem mem_keys_of_dictGet {β : Type} {id : String} {q : List (String × β)}
    {v : β} (h : dictGet id q = some v) : id ∈ q.map Prod.fst := by
  induction q with
  | nil => simp [dictGet] at h
  | cons p rest ih =>
    by_cases h1 : p.1 = id
    · simp [h1]
    · rw [dictGet, if_neg h1] at h
      simp [ih h]

end GeminiBridge

namespace GeminiBridge.ServerHttp

theorem poll_none_spec (q : Table) (h : (poll q).1 = none) :
    (poll q).2 = q ∧
      ∀ p ∈ q, ¬(p.2.assigned = false ∧ p.2.response_data = none) := by
  induction q with
  | nil => simp [poll]
  | cons hd rest ih =>
    obtain ⟨pid, pe⟩ := hd
    by_cases hp : pe.assigned = false ∧ pe.response_data = none
    · rw [poll, if_pos hp] at h
      exact absurd h (by simp)
    · rw [poll, if_neg hp] at h
      obtain ⟨ih1, ih2⟩ := ih h
      refine ⟨by rw [poll, if_neg hp, ih1], ?_⟩
      intro p hmem
      rcases List.mem_cons.mp hmem with h1 | h1
      · rw [h1]
        exact hp
      · exact ih2 p h1

theorem poll_some_spec (q : Table) (r : PollRequest)
    (hnd : (q.map Prod.fst).Nodup) (h : (poll q).1 = some r) :
    ∃ e, dictGet r.requestId q = some e ∧ e.assigned = false ∧
      e.response_data = none ∧ r.message = poll_message e.request_data ∧
      r.model = e.model ∧
      dictGet r.requestId (poll q).2 = some { e with assigned := true } ∧
      (∀ idx, idx ≠ r.requestId →
        dictGet idx (poll q).2 = dictGet idx q) ∧
      (List.Pairwise (fun a b => a.2.timestamp ≤ b.2.timestamp) q →
        ∀ p ∈ q, p.2.assigned = false → p.2.response_data = none →
          e.timestamp ≤ p.2.timestamp) := by
  induction q with
  | nil => simp [poll] at h
  | cons hd rest ih =>
    obtain ⟨pid, pe⟩ := hd
    by_cases hp : pe.assigned = false ∧ pe.response_data = none
    · rw [poll, if_pos hp] at h
      have hr : r = ⟨pid, poll_message pe.request_data, pe.model⟩ :=
        (Option.some.inj h).symm
      refine ⟨pe, ?_, hp.1, hp.2, by rw [hr], by rw [hr], ?_, ?_, ?_⟩
      · rw [hr]
        simp [dictGet]
      · rw [poll, if_pos hp, hr]
        simp [dictGet]
      · intro idx hidx
        have hidx1 : idx ≠ pid := by
          rw [hr] at hidx
          simpa using hidx
        rw [poll, if_pos hp]
        simp [dictGet, Ne.symm hidx1]
      · intro hsorted p hmem hpa hpr
        rcases List.mem_cons.mp hmem with h1 | h1
        · simp [h1]
        · exact (List.pairwise_cons.mp hsorted).1 p h1
    · rw [poll, if_neg hp] at h
      have hnd1 : (rest.map Prod.fst).Nodup := (List.nodup_cons.mp hnd).2
      have hpid : pid ∉ rest.map Prod.fst := (List.nodup_cons.mp hnd).1
      obtain ⟨e, he1, he2, he3, he4, he5, he6, he7, he8⟩ := ih hnd1 h
      have hne : pid ≠ r.requestId := by
        intro hc
        exact hpid (hc ▸ mem_keys_of_dictGet he1)
      refine ⟨e, ?_, he2, he3, he4, he5, ?_, ?_, ?_⟩
      · rw [dictGet, if_neg hne]
        exact he1
      · rw [poll, if_neg hp, dictGet, if_neg hne]
        exact he6
      · intro idx hidx
        rw [poll, if_neg hp]
        by_cases hq : pid = idx
        · simp [dictGet, hq]
        · rw [dictGet, if_neg hq, dictGet, if_neg hq]
          exact he7 idx hidx
      · intro hsorted p hmem hpa hpr
        rcases List.mem_cons.mp hmem with h1 | h1
        · rw [h1] at hpa hpr
          exact absurd ⟨hpa, hpr⟩ hp
        · exact he8 (List.pairwise_cons.mp hsorted).2 p h1 hpa hpr

theorem poll_not_reoffer (q : Table) (idx : String)
    (h : ∀ p ∈ q, p.1 = idx → p.2.assigned = true) :
    ∀ r, (poll q).1 = some r → r.requestId ≠ idx := by
  induction q with
  | nil => simp [poll]
  | cons hd rest ih =>
    obtain ⟨pid, pe⟩ := hd
    intro r hr
    by_cases hp : pe.assigned = false ∧ pe.response_data = none
    · rw [poll, if_pos hp] at hr
      have hreq : r.requestId = pid := by
        rw [← Option.some.inj hr]
      rw [hreq]
      intro hc
      have := h (pid, pe) (by simp) hc
      rw [this] at hp
      exact Bool.noConfusion hp.1
    · rw [poll, if_neg hp] at hr
      exact ih (fun p hm => h p (List.mem_cons_of_mem _ hm)) r hr

theorem poll_keeps_assigned (q : Table) :
    ∀ idx e, dictGet idx q = some e → e.assigned = true →
      dictGet idx (poll q).2 = some e := by
  induction q with
  | nil => simp [dictGet]
  | cons hd rest ih =>
    obtain ⟨pid, pe⟩ := hd
    intro idx e hget ha
    by_cases hp : pe.assigned = false ∧ pe.response_data = none
    · rw [poll, if_pos hp]
      by_cases hq : pid = idx
      · rw [dictGet, if_pos hq] at hget
        have : pe = e := Option.some.inj hget
        rw [this] at hp
        rw [ha] at hp
        exact Bool.noConfusion hp.1
      · rw [dictGet, if_neg hq] at hget
        rw [dictGet, if_neg hq]
        exact hget
    · rw [poll, if_neg hp]
      by_cases hq : pid = idx
      · rw [dictGet, if_pos hq] at hget
        rw [dictGet, if_pos hq]
        exact hget
      · rw [dictGet, if_neg hq] at hget
        rw [dictGet, if_neg hq]
        exact ih idx e hget ha

end GeminiBridge.ServerHttp

namespace GeminiBridge

/-- Counterexample input for C3: an unassigned entry whose outcome is
already a Failure (error_data set, response_data still None). -/
def sampleFailEntryHttp : ServerHttp.Entry :=
  { sampleEntryHttp with error_data := some { message := "boom", code := 500 } }

/-- A younger, still-Unset, unassigned entry (created at time 5). -/
def sampleLaterEntryHttp : ServerHttp.Entry :=
  ServerHttp.freshEntry sampleBody 5 "gemini-pro"

/-- C3 is false on the code: the poll handler tests only response_data,
not the outcome.  With an older unassigned entry that already carries a
Failure outcome and a younger unclaimed-and-Unset entry in the table,
poll returns the Failure entry — not the oldest unclaimed-and-Unset
entry, which the claim requires. -/
theorem C3_counterexample :
    (ServerHttp.poll
          [("id1", sampleFailEntryHttp), ("id2", sampleLaterEntryHttp)]).1
        = some ⟨"id1", "Hello", "gemini-pro"⟩ ∧
      ServerHttp.storedOutcome sampleFailEntryHttp = .failure "boom" ∧
      sampleFailEntryHttp.assigned = false ∧
      ServerHttp.storedOutcome sampleLaterEntryHttp = .unset ∧
      sampleLaterEntryHttp.assigned = false := by
  decide

/-- C3 amended: poll returns the first entry in insertion order (hence
the oldest createdAt, when timestamps are nondecreasing along the table)
among entries that are unassigned and have no recorded response_data —
an entry whose outcome is a Failure but whose response_data is still
None also qualifies — marking exactly that entry assigned and leaving
every other entry unchanged; it returns empty exactly when no entry
qualifies; an entry with assigned = true is never offered and stays in
the table, so no entry is ever handed to two different pollers. -/
theorem C3_amended_poll_claims_first_unresponded (q : ServerHttp.Table)
    (hnd : (q.map Prod.fst).Nodup) :
    ((ServerHttp.poll q).1 = none →
      (ServerHttp.poll q).2 = q ∧
        ∀ p ∈ q, ¬(p.2.assigned = false ∧ p.2.response_data = none)) ∧
    (∀ r, (ServerHttp.poll q).1 = some r →
      ∃ e, dictGet r.requestId q = some e ∧ e.assigned = false ∧
        e.response_data = none ∧
        r.message = ServerHttp.poll_message e.request_data ∧
        r.model = e.model ∧
        dictGet r.requestId (ServerHttp.poll q).2
          = some { e with assigned := true } ∧
        (∀ idx, idx ≠ r.requestId →
          dictGet idx (ServerHttp.poll q).2 = dictGet idx q) ∧
        (List.Pairwise (fun a b => a.2.timestamp ≤ b.2.timestamp) q →
          ∀ p ∈ q, p.2.assigned = false → p.2.response_data = none →
            e.timestamp ≤ p.2.timestamp)) ∧
    (∀ idx, (∀ p ∈ q, p.1 = idx → p.2.assigned = true) →
      ∀ r, (ServerHttp.poll q).1 = some r → r.requestId ≠ idx) ∧
    (∀ idx e, dictGet idx q = some e → e.assigned = true →
      dictGet idx (ServerHttp.poll q).2 = some e) :=
  ⟨fun h => ServerHttp.poll_none_spec q h,
    fun r h => ServerHttp.poll_some_spec q r hnd h,
    fun idx h => ServerHttp.poll_not_reoffer q idx h,
    ServerHttp.poll_keeps_assigned q⟩

/-- An already-claimed entry, used by the C3 witness. -/
def sampleAssignedEntryHttp : ServerHttp.Entry :=
  { sampleEntryHttp with assigned := true }

/-- Witness for the amended C3 at a concrete table holding one already
assigned entry: poll leaves it untouched. -/
theorem C3_witness :
    dictGet "id1" (ServerHttp.poll [("id1", sampleAssignedEntryHttp)]).2
      = some sampleAssignedEntryHttp :=
  (C3_amended_poll_claims_first_unresponded [("id1", sampleAssignedEntryHttp)]
      (by decide)).2.2.2 "id1" sampleAssignedEntryHttp (by decide) rfl

/-- Counterexample input for C8: an entry whose outcome is already a
Failure (error_data set) but whose response_data is still None. -/
def sampleFailEntryPush : Server.Entry :=
  { sampleEntryPush with error_data := some { message := "boom", code := 500 } }

/-- C8 is false on the code: the catch-up loop tests only that
response_data is None, not that the outcome is Unset, so an entry whose
outcome is already a Failure is re-sent to the newly registered
connection. -/
theorem C8_counterexample :
    Server.storedOutcome sampleFailEntryPush = .failure "boom" ∧
      Server.catchup_messages [("id1", sampleFailEntryPush)]
        = [⟨"id1", "Hello", "gemini-pro"⟩] := by
  decide

/-- C8 amended: on a new connection registration, exactly the table
entries whose response_data is still None are re-sent as type-request
messages with their id, extracted message text and model — this includes
entries whose outcome is already a Failure (error recorded, response
not); entries with a recorded response are not re-sent. -/
theorem C8_amended_catchup_resends_unresponded (q : Server.Table) :
    (∀ p ∈ q, p.2.response_data = none →
      (⟨p.1, Server.catchup_text p.2.request_data, p.2.model⟩ :
          Server.WsRequestMsg) ∈ Server.catchup_messages q) ∧
    (∀ m ∈ Server.catchup_messages q, ∃ p, p ∈ q ∧ p.1 = m.requestId ∧
      p.2.response_data = none ∧
      m.message = Server.catchup_text p.2.request_data ∧
      m.model = p.2.model) := by
  constructor
  · induction q with
    | nil =>
      intro p hmem
      simp at hmem
    | cons hd rest ih =>
      obtain ⟨pid, pe⟩ := hd
      intro p hmem hrd
      rcases List.mem_cons.mp hmem with h1 | h1
      · rw [h1] at hrd ⊢
        have hrd2 : pe.response_data = none := hrd
        rw [Server.catchup_messages, if_pos hrd2]
        exact List.mem_cons_self _ _
      · by_cases h2 : pe.response_data = none
        · rw [Server.catchup_messages, if_pos h2]
          exact List.mem_cons_of_mem _ (ih p h1 hrd)
        · rw [Server.catchup_messages, if_neg h2]
          exact ih p h1 hrd
  · induction q with
    | nil =>
      intro m hm
      simp [Server.catchup_messages] at hm
    | cons hd rest ih =>
      obtain ⟨pid, pe⟩ := hd
      intro m hm
      by_cases h2 : pe.response_data = none
      · rw [Server.catchup_messages, if_pos h2] at hm
        rcases List.mem_cons.mp hm with h1 | h1
        · exact ⟨(pid, pe), List.mem_cons_self _ _, by rw [h1], h2,
            by rw [h1], by rw [h1]⟩
        · obtain ⟨p, hp1, hp2, hp3, hp4, hp5⟩ := ih m h1
          exact ⟨p, List.mem_cons_of_mem _ hp1, hp2, hp3, hp4, hp5⟩
      · rw [Server.catchup_messages, if_neg h2] at hm
        obtain ⟨p, hp1, hp2, hp3, hp4, hp5⟩ := ih m hm
        exact ⟨p, List.mem_cons_of_mem _ hp1, hp2, hp3, hp4, hp5⟩

/-- Witness for the amended C8 at a concrete one-entry table whose entry
has no recorded response: its catch-up message is generated. -/
theorem C8_witness :
    (⟨"id1", Server.catchup_text sampleEntryPush.request_data,
        sampleEntryPush.model⟩ : Server.WsRequestMsg)
      ∈ Server.catchup_messages [("id1", sampleEntryPush)] :=
  (C8_amended_catchup_resends_unresponded [("id1", sampleEntryPush)]).1
    ("id1", sampleEntryPush) (by decide) rfl

end GeminiBridge
